import Mathlib

/-!
Shallow embedding of the initialisation and launch orchestration logic of
the FlyCamp console script (`src/static/js/console.js`).  Pure data
transformations are translated as Lean functions; DOM and network side
effects are reified as `Action` values; the three `window.__init*` session
flags form a small record acted on by explicit micro-operations, so that
the flag discipline of the orchestration functions can be stated and proved.
-/

namespace FlyCamp

/-- One step of the server response of `/api/connection_check`:
`{name, ok, message}`.  A missing `message` field is `none`. -/
structure ServerStep where
  name : String
  ok : Bool
  message : Option String
deriving Repr, DecidableEq

/-- Response body of `/api/connection_check`: `{success, steps}`.  The code
reads `data.steps || []`, so an absent `steps` field behaves as the empty
list; the field models the coalesced value. -/
structure CheckResponse where
  success : Bool
  steps : List ServerStep
deriving Repr, DecidableEq

/-- One entry of `window.__initStoredResults.results`:
`{displayName: label, ok: !!step.ok, message: step.message || ''}` as pushed
in `runConnectionCheckAndStart`. -/
structure StoredStep where
  displayName : String
  ok : Bool
  message : String
deriving Repr, DecidableEq

/-- The single-slot store `window.__initStoredResults = {results, success}`. -/
structure StoredResults where
  results : List StoredStep
  success : Bool
deriving Repr, DecidableEq

/-- The global `controllerMode` toggle, either `'joystick'` or `'gesture'`. -/
inductive ControllerMode where
  | joystick
  | gesture
deriving Repr, DecidableEq

/-- The label chosen for the controller step:
`(controllerMode === 'joystick') ? 'Joystick Controller' : 'Hand Gesture Controller'`. -/
def controllerLabel : ControllerMode → String
  | ControllerMode.joystick => "Joystick Controller"
  | ControllerMode.gesture => "Hand Gesture Controller"

/-- `const base = ['Joystick/Gesture', 'Nodes', 'Car', 'Drone'];` -/
def base : List String := ["Joystick/Gesture", "Nodes", "Car", "Drone"]

/-- `const order = (selectedGameId === 2) ? base : base.filter(n => n !== 'Car');`
`selectedGameId` is `null` until a game card is clicked, hence `Option Int`. -/
def order (selectedGameId : Option Int) : List String :=
  if selectedGameId = some 2 then base else base.filter (fun n => !(n == "Car"))

/-- `(data.steps || []).find(s => s.name === name)` -/
def findStep (steps : List ServerStep) (name : String) : Option ServerStep :=
  steps.find? (fun s => s.name == name)

/-- The per-step label computation in the loop body of
`runConnectionCheckAndStart`: the controller step resolves the current
`controllerMode`, every other step uses the server-provided name. -/
def stepLabel (mode : ControllerMode) (name : String) (step : ServerStep) : String :=
  if name = "Joystick/Gesture" then controllerLabel mode else step.name

/-- `step.message || ''`: a missing message and the empty string are both
falsy and yield `''`. -/
def msgOrEmpty : Option String → String
  | none => ""
  | some m => if m = "" then "" else m

/-- One iteration of the `for (const name of order)` loop: names absent from
the server response are skipped (`if (!step) continue;`), otherwise the
stored entry `{displayName: label, ok: !!step.ok, message: step.message || ''}`
is built. -/
def toStoredStep (mode : ControllerMode) (steps : List ServerStep) (name : String) :
    Option StoredStep :=
  match findStep steps name with
  | none => none
  | some step =>
      some (StoredStep.mk (stepLabel mode name step) step.ok (msgOrEmpty step.message))

/-- The `results` array accumulated by `runConnectionCheckAndStart`. -/
def results (mode : ControllerMode) (g : Option Int) (data : CheckResponse) :
    List StoredStep :=
  (order g).filterMap (toStoredStep mode data.steps)

/-- `window.__initStoredResults = { results: results, success: !!data.success };` -/
def storedInitResults (mode : ControllerMode) (g : Option Int) (data : CheckResponse) :
    StoredResults :=
  StoredResults.mk (results mode g data) data.success

/-- A deferred-mode check cycle (`skipStart = true`).  The wall-clock duration
of the network call is an input of the real run but is recorded nowhere: the
stored result is a function of the response alone, so the duration argument
is unused, mirroring the code. -/
def runCheckDeferredStore (_durationMs : Nat) (mode : ControllerMode) (g : Option Int)
    (data : CheckResponse) : StoredResults :=
  storedInitResults mode g data

/-- Reified side effects of the presentation and launch paths. -/
inductive Action where
  | reveal (label : String)
  | mark (label : String) (ok : Bool) (message : String)
  | setStatus (text : String)
  | showErrorBanner
  | connectionCheckCall (gameNumber : Int)
  | persistToken (tokenId : String)
  | startGame (gameNumber : Int) (levelNumber : Int)
  | pollCompletion
deriving Repr, DecidableEq

/-- The two render actions one stored step produces during replay:
`addStepRow(step.displayName)` then `markRow(row, step.ok, step.message)`. -/
def stepActs (s : StoredStep) : List Action :=
  [Action.reveal s.displayName, Action.mark s.displayName s.ok s.message]

/-- Immediate-mode rendering of one catalog name in
`runConnectionCheckAndStart` (`skipStart = false`): the row is added and then
marked with exactly the data that is simultaneously pushed into `results`;
names absent from the response render nothing. -/
def animOne (mode : ControllerMode) (steps : List ServerStep) (name : String) :
    List Action :=
  match toStoredStep mode steps name with
  | none => []
  | some s => stepActs s

/-- The ordered reveal and mark sequence produced while the original response
is processed in immediate mode. -/
def immediateAnim (mode : ControllerMode) (g : Option Int) (data : CheckResponse) :
    List Action :=
  (order g).flatMap (animOne mode data.steps)

/-- The closing actions of `showStoredInitResultsSequentially` once `idx`
reaches the end of the stored list. -/
def endStatus (success : Bool) : List Action :=
  if success then [Action.setStatus "Connection OK. Preparing game..."]
  else [Action.setStatus "Initialisation failed.", Action.showErrorBanner]

/-- `showStoredInitResultsSequentially`: replays the stored entries one by one
(reveal then mark, fixed 200 ms pacing) and then reports the stored outcome.
It reads only `window.__initStoredResults`. -/
def showStoredInitResultsSequentially (stored : StoredResults) : List Action :=
  stored.results.flatMap stepActs ++ endStatus stored.success

/-- The replay path parameterised by the controller mode current at display
time.  The argument is unused because `showStoredInitResultsSequentially`
reads only `step.displayName` from the stored entries and never consults
`controllerMode`. -/
def replayAtMode (_modeAtDisplay : ControllerMode) (stored : StoredResults) :
    List Action :=
  showStoredInitResultsSequentially stored

/-- Response body of `/api/start_game`: `{success, error?}`. -/
structure StartGameResponse where
  success : Bool
  error : Option String
deriving Repr, DecidableEq

/-- `data.error || 'Failed to launch the game.'` -/
def errorMessage (resp : StartGameResponse) : String :=
  match resp.error with
  | none => "Failed to launch the game."
  | some e => if e = "" then "Failed to launch the game." else e

/-- `selectedGameId || 1`: both `null` and `0` are falsy and default to `1`. -/
def jsGameNumber : Option Int → Int
  | none => 1
  | some v => if v = 0 then 1 else v

/-- Request body of `/api/connection_check`:
`{ game_number: selectedGameId || 1 }`. -/
structure ConnectionCheckRequest where
  game_number : Int
deriving Repr, DecidableEq

/-- The request `runConnectionCheckAndStart` sends to `/api/connection_check`. -/
def connectionCheckRequest (g : Option Int) : ConnectionCheckRequest :=
  ConnectionCheckRequest.mk (jsGameNumber g)

/-- Request body of `/api/start_game`:
`{ game_number: selectedGameId || 1, level_number: 1 }`. -/
structure StartGameRequest where
  game_number : Int
  level_number : Int
deriving Repr, DecidableEq

/-- The request sent to `/api/start_game` by both launch sites. -/
def startGameRequest (g : Option Int) : StartGameRequest :=
  StartGameRequest.mk (jsGameNumber g) 1

/-- The launch sequence shared by the auto-start timeout of
`proceedAfterPreview` and the non-skip tail of `runConnectionCheckAndStart`:
write the RFID token, start the game, then either begin completion polling
(`checkGameDone`) or surface the server error and stop. -/
def launchActions (rfidTag : String) (g : Option Int) (resp : StartGameResponse) :
    List Action :=
  [Action.persistToken rfidTag, Action.startGame (jsGameNumber g) 1] ++
    (if resp.success then
      [Action.setStatus "Game started. Good luck!", Action.pollCompletion]
    else
      [Action.setStatus (errorMessage resp), Action.showErrorBanner])

/-- The `waitReady` loop of `proceedAfterPreview`: poll `window.__initReady`
every 150 ms; once true, replay the stored results.  `ready k` is the flag
value observed at the k-th poll and `fuel` bounds the number of polls
considered. -/
def waitReady (fuel : Nat) (ready : Nat → Bool) (tick : Nat) (stored : StoredResults) :
    List Action :=
  match fuel with
  | 0 => []
  | Nat.succ f =>
    if ready tick then showStoredInitResultsSequentially stored
    else waitReady f ready (tick + 1) stored

/-- The `maybeStart` loop of `proceedAfterPreview`: poll `window.__initReady`
every 250 ms; once true, exit silently unless `window.__initSuccess` holds, in
which case the launch sequence is scheduled exactly once after the 3000 ms
grace delay. -/
def maybeStart (fuel : Nat) (ready : Nat → Bool) (tick : Nat) (success : Bool)
    (rfidTag : String) (g : Option Int) (resp : StartGameResponse) : List Action :=
  match fuel with
  | 0 => []
  | Nat.succ f =>
    if ready tick then
      if success then launchActions rfidTag g resp else []
    else maybeStart f ready (tick + 1) success rfidTag g resp

/-- `proceedAfterPreview` starts both polling paths; for counting the actions
of one invocation the two paths' actions are concatenated. -/
def proceedAfterPreview (fuel : Nat) (ready : Nat → Bool) (stored : StoredResults)
    (success : Bool) (rfidTag : String) (g : Option Int) (resp : StartGameResponse) :
    List Action :=
  waitReady fuel ready 0 stored ++ maybeStart fuel ready 0 success rfidTag g resp

/-- An invocation of the launch sequence begins with the token write. -/
def isLaunchInvocation : Action → Bool
  | Action.persistToken _ => true
  | _ => false

/-- Recognises the `/api/start_game` request. -/
def isStartGameCall : Action → Bool
  | Action.startGame _ _ => true
  | _ => false

/-- Recognises every action that issues a network request. -/
def isNetworkCall : Action → Bool
  | Action.connectionCheckCall _ => true
  | Action.persistToken _ => true
  | Action.startGame _ _ => true
  | Action.pollCompletion => true
  | _ => false

/-- Recognises the two per-step render actions. -/
def isPresentationStep : Action → Bool
  | Action.reveal _ => true
  | Action.mark _ _ _ => true
  | _ => false

/-- The reveal and mark actions of a sequence, in order. -/
def presentationOf (acts : List Action) : List Action :=
  acts.filter isPresentationStep

/-- The labels revealed by a sequence, in order. -/
def revealLabels (acts : List Action) : List String :=
  acts.filterMap (fun a => match a with | Action.reveal l => some l | _ => none)

/-- The three session flags `window.__initStarted`, `window.__initReady`,
`window.__initSuccess`. -/
structure InitFlags where
  initStarted : Bool
  initReady : Bool
  initSuccess : Bool
deriving Repr, DecidableEq

/-- Primitive state writes performed by the orchestration functions, in the
order the statements appear in the source. -/
inductive MicroOp where
  | hideError
  | showError
  | setStarted (b : Bool)
  | setReady (b : Bool)
  | setSuccess (b : Bool)
  | issueCheck (delayStartMs : Nat) (skipStart : Bool)
deriving Repr, DecidableEq

/-- Effect of one micro-operation on the three flags. -/
def applyOp (f : InitFlags) : MicroOp → InitFlags
  | MicroOp.setStarted b => { f with initStarted := b }
  | MicroOp.setReady b => { f with initReady := b }
  | MicroOp.setSuccess b => { f with initSuccess := b }
  | _ => f

/-- Execute a list of micro-operations on the flags. -/
def execFlags (f : InitFlags) (ops : List MicroOp) : InitFlags :=
  ops.foldl applyOp f

/-- Body of `retryConnectionCheck`: hide the error banner, clear all three
flags, then call `runConnectionCheckAndStart(3000, false)`. -/
def retryConnectionCheckOps : List MicroOp :=
  [MicroOp.hideError, MicroOp.setStarted false, MicroOp.setReady false,
   MicroOp.setSuccess false, MicroOp.issueCheck 3000 false]

/-- The guarded start inside `openOverlay`: only when `!window.__initStarted`
are the flags written and a deferred check issued via
`runConnectionCheckAndStart(0, true)`. -/
def openOverlayInitOps (f : InitFlags) : List MicroOp :=
  if f.initStarted then []
  else [MicroOp.setStarted true, MicroOp.setReady false, MicroOp.setSuccess false,
        MicroOp.issueCheck 0 true]

/-- Flag writes `runConnectionCheckAndStart` performs when the network call
resolves: `__initReady = true; __initSuccess = !!data.success;` — the flag
`__initStarted` is never written by this function. -/
def runCheckResolveOps (success : Bool) : List MicroOp :=
  [MicroOp.setReady true, MicroOp.setSuccess success]

/-- Flag writes when the network call rejects: the catch block only updates
the status text and shows the error banner; none of the three flags is
written. -/
def runCheckRejectOps : List MicroOp :=
  [MicroOp.showError]

/-- Recognises the issuing of a connectivity check. -/
def isIssueCheck : MicroOp → Bool
  | MicroOp.issueCheck _ _ => true
  | _ => false

/-- Outcome of `await fetch('/api/connection_check', ...)` followed by
`await res.json()`. -/
inductive FetchOutcome where
  | resolved (data : CheckResponse)
  | rejected
deriving Repr, DecidableEq

/-- Net effect of a deferred-mode `runConnectionCheckAndStart` run on the
flags, the stored-result slot and the visible error actions, as a function
of the network outcome.  On rejection control jumps to the catch block,
which surfaces the error but writes neither the slot nor any flag. -/
def runCheckDeferredUpdate (outcome : FetchOutcome) (mode : ControllerMode)
    (g : Option Int) (flags : InitFlags) (slot : Option StoredResults) :
    InitFlags × Option StoredResults × List Action :=
  match outcome with
  | FetchOutcome.resolved data =>
      ({ flags with initReady := true, initSuccess := data.success },
       some (storedInitResults mode g data), [])
  | FetchOutcome.rejected =>
      (flags, slot,
       [Action.setStatus "Unexpected error during initialisation.",
        Action.showErrorBanner])

/-- The controller label never collides with the vehicle step name. -/
lemma controllerLabel_ne_car (mode : ControllerMode) : controllerLabel mode ≠ "Car" := by
  cases mode <;> decide

/-- The controller step is in the active order for every game selection. -/
lemma controller_mem_order (g : Option Int) : "Joystick/Gesture" ∈ order g := by
  unfold order
  by_cases h : g = some 2
  · rw [if_pos h]; decide
  · rw [if_neg h]; decide

/-- For a non-vehicle game the active order omits the vehicle step. -/
lemma car_not_mem_order {g : Option Int} (hg : g ≠ some 2) : "Car" ∉ order g := by
  unfold order
  rw [if_neg hg]
  intro hmem
  have h := List.mem_filter.mp hmem
  simp at h

/-- Names of the active order differ from `"Car"` for non-vehicle games. -/
lemma order_name_ne_car {g : Option Int} (hg : g ≠ some 2) {name : String}
    (h : name ∈ order g) : name ≠ "Car" := by
  intro hC
  subst hC
  exact car_not_mem_order hg h

/-- Every stored entry arises from a name of the active order. -/
lemma mem_results_ex {mode : ControllerMode} {g : Option Int} {data : CheckResponse}
    {s : StoredStep} (h : s ∈ results mode g data) :
    ∃ name, name ∈ order g ∧ toStoredStep mode data.steps name = some s := by
  unfold results at h
  exact List.mem_filterMap.mp h

/-- The display name of a stored entry is either the controller label or the
catalog name it was looked up under. -/
lemma toStoredStep_displayName {mode : ControllerMode} {steps : List ServerStep}
    {name : String} {s : StoredStep} (h : toStoredStep mode steps name = some s) :
    s.displayName = controllerLabel mode ∨ s.displayName = name := by
  cases hf : findStep steps name with
  | none => simp [toStoredStep, hf] at h
  | some step =>
    have h2 : StoredStep.mk (stepLabel mode name step) step.ok
        (msgOrEmpty step.message) = s := by
      simpa [toStoredStep, hf] using h
    subst h2
    by_cases hn : name = "Joystick/Gesture"
    · left
      show stepLabel mode name step = controllerLabel mode
      simp [stepLabel, hn]
    · right
      show stepLabel mode name step = name
      unfold findStep at hf
      have h3 := List.find?_some hf
      have hname : step.name = name := by simpa using h3
      simp [stepLabel, hn, hname]

/-- Replay of the entries built from a response renders exactly the reveal
and mark actions immediate mode would have rendered. -/
lemma filterMap_flatMap_stepActs (mode : ControllerMode) (steps : List ServerStep)
    (names : List String) :
    (names.filterMap (toStoredStep mode steps)).flatMap stepActs =
      names.flatMap (animOne mode steps) := by
  induction names with
  | nil => rfl
  | cons a l ih =>
    cases h : toStoredStep mode steps a with
    | none => simp [List.filterMap_cons, h, animOne, ih]
    | some s => simp [List.filterMap_cons, h, animOne, ih]

/-- Every action produced per stored entry is a presentation action. -/
lemma presentationOf_flatMap_stepActs (l : List StoredStep) :
    presentationOf (l.flatMap stepActs) = l.flatMap stepActs := by
  induction l with
  | nil => rfl
  | cons a l ih =>
    unfold presentationOf at ih ⊢
    rw [List.flatMap_cons, List.filter_append, ih]
    rfl

/-- The closing status actions contain no presentation action. -/
lemma presentationOf_endStatus (b : Bool) : presentationOf (endStatus b) = [] := by
  cases b <;> rfl

/-- Per-entry render actions never invoke the launch sequence. -/
lemma countP_launch_stepActs_flatMap (l : List StoredStep) :
    (l.flatMap stepActs).countP isLaunchInvocation = 0 := by
  induction l with
  | nil => rfl
  | cons a l ih =>
    rw [List.flatMap_cons, List.countP_append, ih]
    rfl

/-- The closing status actions never invoke the launch sequence. -/
lemma countP_launch_endStatus (b : Bool) :
    (endStatus b).countP isLaunchInvocation = 0 := by
  cases b <;> rfl

/-- Replaying stored results never invokes the launch sequence. -/
lemma countP_launch_replay (stored : StoredResults) :
    (showStoredInitResultsSequentially stored).countP isLaunchInvocation = 0 := by
  unfold showStoredInitResultsSequentially
  rw [List.countP_append, countP_launch_stepActs_flatMap, countP_launch_endStatus]

/-- The presentation polling path never invokes the launch sequence. -/
lemma countP_launch_waitReady (fuel : Nat) (ready : Nat → Bool) (tick : Nat)
    (stored : StoredResults) :
    (waitReady fuel ready tick stored).countP isLaunchInvocation = 0 := by
  induction fuel generalizing tick with
  | zero => rfl
  | succ f ih =>
    unfold waitReady
    by_cases h : ready tick
    · rw [if_pos h]
      exact countP_launch_replay stored
    · rw [if_neg h]
      exact ih (tick + 1)

/-- One run of the launch sequence contains exactly one invocation marker. -/
lemma countP_launch_launchActions (tok : String) (g : Option Int)
    (resp : StartGameResponse) :
    (launchActions tok g resp).countP isLaunchInvocation = 1 := by
  unfold launchActions
  cases hr : resp.success <;>
    simp [List.countP_append, List.countP_cons, isLaunchInvocation]

/-- The auto-start polling path invokes the launch sequence at most once. -/
lemma countP_launch_maybeStart (fuel : Nat) (ready : Nat → Bool) (tick : Nat)
    (success : Bool) (tok : String) (g : Option Int) (resp : StartGameResponse) :
    (maybeStart fuel ready tick success tok g resp).countP isLaunchInvocation ≤ 1 := by
  induction fuel generalizing tick with
  | zero => exact Nat.zero_le 1
  | succ f ih =>
    unfold maybeStart
    by_cases h : ready tick
    · rw [if_pos h]
      cases success
      · simp
      · simp [countP_launch_launchActions]
    · rw [if_neg h]
      exact ih (tick + 1)

/-- Per-entry render actions issue no network request. -/
lemma countP_network_stepActs_flatMap (l : List StoredStep) :
    (l.flatMap stepActs).countP isNetworkCall = 0 := by
  induction l with
  | nil => rfl
  | cons a l ih =>
    rw [List.flatMap_cons, List.countP_append, ih]
    rfl

/-- The closing status actions issue no network request. -/
lemma countP_network_endStatus (b : Bool) :
    (endStatus b).countP isNetworkCall = 0 := by
  cases b <;> rfl

/-- With the readiness flag permanently false the presentation poll never
performs any action, whatever bound is allowed. -/
lemma waitReady_const_false (fuel tick : Nat) (stored : StoredResults) :
    waitReady fuel (fun _ => false) tick stored = [] := by
  induction fuel generalizing tick with
  | zero => rfl
  | succ f ih =>
    unfold waitReady
    simpa using ih (tick + 1)

/-- The reveal and mark actions of a replay of a stored result equal the
immediate-mode animation of the response it was built from. -/
lemma presentation_replay_eq_anim (mode : ControllerMode) (g : Option Int)
    (data : CheckResponse) :
    presentationOf (showStoredInitResultsSequentially (storedInitResults mode g data)) =
      immediateAnim mode g data := by
  unfold showStoredInitResultsSequentially presentationOf
  rw [List.filter_append]
  have h1 := presentationOf_flatMap_stepActs (storedInitResults mode g data).results
  unfold presentationOf at h1
  rw [h1]
  have h2 := presentationOf_endStatus (storedInitResults mode g data).success
  unfold presentationOf at h2
  rw [h2, List.append_nil]
  exact filterMap_flatMap_stepActs mode data.steps (order g)

/-- C1 (code bug): if the network call to the connectivity-check endpoint
rejects, the catch block of `runConnectionCheckAndStart` surfaces an error
but produces no result and writes none of the three flags: `initReady`
remains false, so a consumer polling `initReady` performs no action within
any bound, contradicting the claim that `initReady` still becomes true with
`success = false` within a bounded time. -/
theorem network_rejection_leaves_ready_false :
    ∀ (mode : ControllerMode) (g : Option Int) (slot : Option StoredResults)
      (fuel tick : Nat) (stored : StoredResults),
      (runCheckDeferredUpdate FetchOutcome.rejected mode g
        (InitFlags.mk true false false) slot).1.initReady = false ∧
      (runCheckDeferredUpdate FetchOutcome.rejected mode g
        (InitFlags.mk true false false) slot).2.1 = slot ∧
      Action.showErrorBanner ∈ (runCheckDeferredUpdate FetchOutcome.rejected mode g
        (InitFlags.mk true false false) slot).2.2 ∧
      execFlags (InitFlags.mk true false false) runCheckRejectOps =
        InitFlags.mk true false false ∧
      waitReady fuel (fun _ => false) tick stored = [] := by
  intro mode g slot fuel tick stored
  refine ⟨rfl, rfl, ?_, rfl, waitReady_const_false fuel tick stored⟩
  simp [runCheckDeferredUpdate]

/-- C2 counterexample: a server response that reports overall success while
one filtered step is not ok yields a stored result with `success = true`
although not every stored step has `ok = true`. -/
theorem stored_success_not_all_ok_counterexample :
    ¬ ((storedInitResults ControllerMode.joystick (some 1)
        (CheckResponse.mk true [ServerStep.mk "Nodes" false none])).success = true ↔
       ∀ s ∈ (storedInitResults ControllerMode.joystick (some 1)
        (CheckResponse.mk true [ServerStep.mk "Nodes" false none])).results,
        s.ok = true) := by decide

/-- C2 (amended): the stored `success` flag mirrors the raw server response's
`success` field and is not computed from the per-step `ok` flags; in
particular the empty-list behaviour also just reflects the raw response. -/
theorem stored_success_mirrors_server :
    ∀ (mode : ControllerMode) (g : Option Int) (data : CheckResponse),
      ((storedInitResults mode g data).success = true ↔ data.success = true) := by
  intro mode g data
  exact Iff.rfl

/-- C3: within one check cycle `proceedAfterPreview`'s two polling paths
invoke the launch sequence at most once: the presentation path only replays
stored results and the auto-start path schedules at most one launch. -/
theorem launch_invoked_at_most_once :
    ∀ (fuel : Nat) (ready : Nat → Bool) (stored : StoredResults) (success : Bool)
      (rfidTag : String) (g : Option Int) (resp : StartGameResponse),
      (proceedAfterPreview fuel ready stored success rfidTag g resp).countP
        isLaunchInvocation ≤ 1 := by
  intro fuel ready stored success tok g resp
  unfold proceedAfterPreview
  rw [List.countP_append, countP_launch_waitReady]
  simpa using countP_launch_maybeStart fuel ready 0 success tok g resp

/-- C4 counterexample: with the toggle on joystick at check time, the stored
result replayed while the toggle is on gesture still reveals the label
`"Joystick Controller"`, not the gesture-mode label, so the label does not
reflect the mode at display time. -/
theorem replay_label_fixed_at_check_time_counterexample :
    revealLabels (replayAtMode ControllerMode.gesture
      (storedInitResults ControllerMode.joystick (some 1)
        (CheckResponse.mk true [ServerStep.mk "Joystick/Gesture" true none]))) =
      ["Joystick Controller"] ∧
    controllerLabel ControllerMode.gesture = "Hand Gesture Controller" :=
  ⟨rfl, rfl⟩

/-- C4 (amended): the controller label is resolved from the controller-mode
toggle at check-completion time and baked into the stored result; replay
reads only the stored `displayName` and is therefore identical for every
display-time mode. -/
theorem controller_label_resolved_at_check_time :
    ∀ (m1 m2 : ControllerMode) (stored : StoredResults) (mode : ControllerMode)
      (g : Option Int) (data : CheckResponse) (step : ServerStep),
      replayAtMode m1 stored = replayAtMode m2 stored ∧
      (findStep data.steps "Joystick/Gesture" = some step →
        StoredStep.mk (controllerLabel mode) step.ok (msgOrEmpty step.message) ∈
          results mode g data) := by
  intro m1 m2 stored mode g data step
  refine ⟨rfl, fun hf => ?_⟩
  unfold results
  rw [List.mem_filterMap]
  refine ⟨"Joystick/Gesture", controller_mem_order g, ?_⟩
  simp [toStoredStep, hf, stepLabel]

/-- Witness for C4 (amended): a gesture-mode check of a response carrying the
controller step stores the gesture label together with the step outcome. -/
theorem controller_label_resolved_at_check_time_witness :
    StoredStep.mk "Hand Gesture Controller" false "nope" ∈
      results ControllerMode.gesture none
        (CheckResponse.mk false [ServerStep.mk "Joystick/Gesture" false (some "nope")]) :=
  (controller_label_resolved_at_check_time ControllerMode.joystick
    ControllerMode.joystick (StoredResults.mk [] true) ControllerMode.gesture none
    (CheckResponse.mk false [ServerStep.mk "Joystick/Gesture" false (some "nope")])
    (ServerStep.mk "Joystick/Gesture" false (some "nope"))).2 rfl

/-- C5: the vehicle step `"Car"` is in the active order exactly when the
selected game is the vehicle game (id 2); for any other selection no stored
entry can carry the display name `"Car"`, whatever the server returned. -/
theorem car_step_only_for_vehicle_game :
    ∀ (g : Option Int),
      ("Car" ∈ order g ↔ g = some 2) ∧
      (g ≠ some 2 → ∀ (mode : ControllerMode) (data : CheckResponse),
        "Car" ∉ (results mode g data).map StoredStep.displayName) := by
  intro g
  constructor
  · constructor
    · intro hmem
      by_contra hg
      exact car_not_mem_order hg hmem
    · intro hg
      subst hg
      decide
  · intro hg mode data hmem
    rw [List.mem_map] at hmem
    obtain ⟨s, hs, hds⟩ := hmem
    obtain ⟨name, hname, hstep⟩ := mem_results_ex hs
    rcases toStoredStep_displayName hstep with h1 | h1
    · exact controllerLabel_ne_car mode (h1.symm.trans hds)
    · exact order_name_ne_car hg hname (h1.symm.trans hds)

/-- Witness for C5: with game 1 selected the server may return a `"Car"`
step, yet no stored entry is displayed as `"Car"`. -/
theorem car_step_only_for_vehicle_game_witness :
    "Car" ∉ (results ControllerMode.joystick (some 1)
      (CheckResponse.mk true [ServerStep.mk "Car" true none])).map
      StoredStep.displayName :=
  (car_step_only_for_vehicle_game (some 1)).2 (by decide) ControllerMode.joystick
    (CheckResponse.mk true [ServerStep.mk "Car" true none])

/-- C6: replaying a stored check result is a pure function of the stored
data: it is identical whatever the original check duration was, its reveal
and mark actions equal the immediate-mode animation of the original
response, and it issues no network call. -/
theorem replay_reproduces_original_without_network :
    ∀ (d1 d2 : Nat) (mode : ControllerMode) (g : Option Int) (data : CheckResponse),
      showStoredInitResultsSequentially (runCheckDeferredStore d1 mode g data) =
        showStoredInitResultsSequentially (runCheckDeferredStore d2 mode g data) ∧
      presentationOf (showStoredInitResultsSequentially
        (runCheckDeferredStore d1 mode g data)) = immediateAnim mode g data ∧
      (showStoredInitResultsSequentially
        (runCheckDeferredStore d1 mode g data)).countP isNetworkCall = 0 := by
  intro d1 d2 mode g data
  refine ⟨rfl, presentation_replay_eq_anim mode g data, ?_⟩
  show (showStoredInitResultsSequentially (storedInitResults mode g data)).countP
    isNetworkCall = 0
  unfold showStoredInitResultsSequentially
  rw [List.countP_append, countP_network_stepActs_flatMap, countP_network_endStatus]

/-- C7: the launch sequence persists the token, then requests game start with
`(selectedGameId || 1, level_number = 1)`; the start request is issued
exactly once, completion polling begins exactly when the server reports
success, and on failure the server error is surfaced and nothing further
runs. -/
theorem launch_sequence_strict_order :
    ∀ (rfidTag : String) (g : Option Int) (resp : StartGameResponse),
      (launchActions rfidTag g resp).take 2 =
        [Action.persistToken rfidTag, Action.startGame (jsGameNumber g) 1] ∧
      (launchActions rfidTag g resp).countP isStartGameCall = 1 ∧
      (Action.pollCompletion ∈ launchActions rfidTag g resp ↔ resp.success = true) ∧
      (resp.success = false →
        Action.setStatus (errorMessage resp) ∈ launchActions rfidTag g resp ∧
        Action.pollCompletion ∉ launchActions rfidTag g resp) := by
  intro tok g resp
  cases hr : resp.success
  · refine ⟨?_, ?_, ?_, ?_⟩ <;>
      simp [launchActions, hr, List.countP_cons, List.countP_append, isStartGameCall]
  · refine ⟨?_, ?_, ?_, ?_⟩ <;>
      simp [launchActions, hr, List.countP_cons, List.countP_append, isStartGameCall]

/-- Witness for C7: a failing start response surfaces its error and no
completion polling happens. -/
theorem launch_sequence_strict_order_witness :
    Action.setStatus (errorMessage (StartGameResponse.mk false none)) ∈
      launchActions "t" none (StartGameResponse.mk false none) ∧
    Action.pollCompletion ∉ launchActions "t" none (StartGameResponse.mk false none) :=
  (launch_sequence_strict_order "t" none (StartGameResponse.mk false none)).2.2.2 rfl

/-- C8: `retryConnectionCheck` sets all three session flags to false and only
afterwards re-issues the connectivity check. -/
theorem retry_resets_all_flags_before_check :
    ∀ (f : InitFlags),
      execFlags f (retryConnectionCheckOps.take 4) = InitFlags.mk false false false ∧
      (retryConnectionCheckOps.take 4).countP isIssueCheck = 0 ∧
      retryConnectionCheckOps =
        retryConnectionCheckOps.take 4 ++ [MicroOp.issueCheck 3000 false] := by
  intro f
  cases f with
  | mk a b c => exact ⟨rfl, rfl, rfl⟩

/-- C9: with no game ever selected (`selectedGameId` null) or a falsy id,
both the connectivity-check request and the start-game request carry
`game_number = 1`, and the start request carries `level_number = 1`. -/
theorem falsy_game_id_defaults_to_one :
    ∀ (g : Option Int), (g = none ∨ g = some 0) →
      (connectionCheckRequest g).game_number = 1 ∧
      (startGameRequest g).game_number = 1 ∧
      (startGameRequest g).level_number = 1 := by
  intro g hg
  rcases hg with rfl | rfl
  · exact ⟨rfl, rfl, rfl⟩
  · exact ⟨by decide, by decide, rfl⟩

/-- Witness for C9: the null selection defaults to game 1. -/
theorem falsy_game_id_defaults_to_one_witness :
    (connectionCheckRequest none).game_number = 1 ∧
    (startGameRequest none).game_number = 1 ∧
    (startGameRequest none).level_number = 1 :=
  falsy_game_id_defaults_to_one none (Or.inl rfl)

/-- C10: after `retryConnectionCheck` the `initStarted` flag is false and
stays false through the check run's own writes (resolve or reject), the
`openOverlay` guard only blocks when `initStarted` is true, and reopening
the overlay during a retry cycle therefore issues a second check. -/
theorem retry_leaves_started_false_and_overlay_restarts :
    ∀ (f0 : InitFlags) (success : Bool),
      (execFlags f0 retryConnectionCheckOps).initStarted = false ∧
      (execFlags (execFlags f0 retryConnectionCheckOps)
        (runCheckResolveOps success)).initStarted = false ∧
      (execFlags (execFlags f0 retryConnectionCheckOps)
        runCheckRejectOps).initStarted = false ∧
      (retryConnectionCheckOps ++
        openOverlayInitOps (execFlags f0 retryConnectionCheckOps)).countP
        isIssueCheck = 2 ∧
      (∀ r s : Bool, openOverlayInitOps (InitFlags.mk true r s) = []) := by
  intro f0 success
  cases f0 with
  | mk a b c => exact ⟨rfl, rfl, rfl, rfl, fun r s => rfl⟩

end FlyCamp
